import Mathlib

/-
  Verification of the DragonSync-iOS synthetic-telemetry test scripts.

  Shallow embedding of the two script variants:
  - namespace Tests : src/Tests/testscript.py
  - namespace Util  : src/Util/testscript.py

  Conventions of the embedding:
  - Python floats are modelled as real numbers; Python ints as Int/Nat;
    values that stay rational (the FPV signal-strength state machine) as Rat.
  - Wall-clock timestamps from datetime.now are passed in as a parameter
    `nowUs` counted in microseconds (the strftime format "%Y-%m-%dT%H:%M:%S.%fZ"
    renders a UTC datetime at microsecond resolution, injectively), and
    time.time() values as a real parameter `s` in seconds.
  - Every call to the random module is modelled by an explicit draw parameter.
-/

/-- Python float modulo: x % m = x - m * floor (x / m) (sign follows m). -/
noncomputable def pyMod (x m : ℝ) : ℝ := x - m * ⌊x / m⌋

/-- math.degrees: radians to degrees. -/
noncomputable def degOf (r : ℝ) : ℝ := r * 180 / Real.pi

/-- math.atan2 (the C atan2): angle of the point (x, y) in (-pi, pi].
    First argument is y, second is x, as in Python. -/
noncomputable def atan2 (y x : ℝ) : ℝ :=
  if 0 < x then Real.arctan (y / x)
  else if x < 0 ∧ 0 ≤ y then Real.arctan (y / x) + Real.pi
  else if x < 0 ∧ y < 0 then Real.arctan (y / x) - Real.pi
  else if x = 0 ∧ 0 < y then Real.pi / 2
  else if x = 0 ∧ y < 0 then -(Real.pi / 2)
  else 0

/-- Python int() on a float: truncation toward zero. -/
noncomputable def pyInt (x : ℝ) : ℤ := if 0 ≤ x then ⌊x⌋ else ⌈x⌉

/-- Python round() to an integer: nearest, ties to even. -/
noncomputable def pyRound0 (x : ℝ) : ℤ :=
  if Int.fract x = 1 / 2 then (if 2 ∣ ⌊x⌋ then ⌊x⌋ else ⌊x⌋ + 1) else round x

/-- Python round(x, p): round to p decimal places, ties to even. -/
noncomputable def pyRound (p : ℕ) (x : ℝ) : ℝ := (pyRound0 (x * 10 ^ p) : ℝ) / 10 ^ p

/-- timedelta(minutes=10) in microseconds. -/
def tenMinutesUs : ℤ := 600000000

/-- One scan step of Python str.replace, fuelled for structural recursion:
    replace each non-overlapping occurrence of pat, scanning left to right. -/
def replaceFuel (pat rep : List Char) : ℕ → List Char → List Char
  | 0, s => s
  | _ + 1, [] => []
  | fuel + 1, c :: cs =>
    if pat ≠ [] ∧ pat.isPrefixOf (c :: cs) then
      rep ++ replaceFuel pat rep fuel ((c :: cs).drop pat.length)
    else
      c :: replaceFuel pat rep fuel cs

/-- Python str.replace(pat, rep): replaces every occurrence of pat in s. -/
def pyReplace (s pat rep : String) : String :=
  String.mk (replaceFuel pat.data rep.data s.data.length s.data)

/-- Python f-string :02d formatting of a small natural number. -/
def fmt02 (n : ℕ) : String := if n < 10 then "0" ++ toString n else toString n

/-- Lowercase hex digit of a value below 16. -/
def hexDigit (n : ℕ) : Char := Char.ofNat (if n < 10 then 48 + n else 87 + n)

/-- Python f-string :04x formatting (values below 0x10000). -/
def hex4 (n : ℕ) : String :=
  String.mk [hexDigit (n / 4096 % 16), hexDigit (n / 256 % 16),
             hexDigit (n / 16 % 16), hexDigit (n % 16)]

/-- Uppercase hex digit of a value below 16. -/
def hexDigitU (n : ℕ) : Char := Char.ofNat (if n < 10 then 48 + n else 55 + n)

/-- Python f-string :06X formatting (values below 0x1000000). -/
def hex6 (n : ℕ) : String :=
  String.mk [hexDigitU (n / 1048576 % 16), hexDigitU (n / 65536 % 16),
             hexDigitU (n / 4096 % 16), hexDigitU (n / 256 % 16),
             hexDigitU (n / 16 % 16), hexDigitU (n % 16)]

/-- Stated from the spec's words for claim C7: the base identifier is the
    owning drone's identity with any leading "drone-" tag stripped. -/
def dropDroneTag (s : String) : String :=
  if ("drone-").data.isPrefixOf s.data then String.mk (s.data.drop 6) else s

namespace Tests

/-! ## src/Tests/testscript.py : DroneMessageGenerator -/

/-- Mutable FPV detection state `self.current_fpv_detection`
    (lines 277-298 of src/Tests/testscript.py). -/
structure FpvDetection where
  frequency : ℤ
  source_inst : String
  source_node : String
  detection_source : String
  rssi : ℚ
  time : ℤ
deriving DecidableEq

/-- DroneMessageGenerator.__init__ state (lines 68-87). The two coordinate
    ranges and the id pools are set once in __init__; index fields and the
    FPV record are the mutable session state. -/
structure GenState where
  lat_range : ℝ × ℝ
  lon_range : ℝ × ℝ
  msg_index : ℕ
  start_time : ℝ
  drone_ids : List String
  current_drone_index : ℕ
  current_drone_id : String
  caa_ids : List String
  current_caa_index : ℕ
  fpv : Option FpvDetection

/-- The three realistic serial numbers of __init__ (lines 77-81). -/
def droneIds0 : List String :=
  ["112624150A90E3AE1EC0", "3NZDJ1Y0010ABC", "1869600XXYYZZ"]

/-- The generator state right after __init__ (start_time is the wall clock
    at construction). -/
def initState (s0 : ℝ) : GenState :=
  { lat_range := (37.2, 37.3)
    lon_range := (-115.8, -115.7)
    msg_index := 0
    start_time := s0
    drone_ids := droneIds0
    current_drone_index := 0
    current_drone_id := "112624150A90E3AE1EC0"
    caa_ids := ["123456", "789ABC", "XYZ999"]
    current_caa_index := 0
    fpv := none }

/-- Kinematic outputs of the drone figure-eight model
    (lines 105-131 of generate_drone_cot_with_track). -/
structure Kin where
  lat : ℝ
  lon : ℝ
  alt : ℝ
  speed : ℝ
  vspeed : ℝ
  course : ℝ

/-- Lines 105-131: the figure-eight kinematics as a function of the wall
    clock s (the code sets t = time.time() * 0.1). -/
noncomputable def droneKin (g : GenState) (s : ℝ) : Kin :=
  let t := s * 0.1
  let center_lat := (g.lat_range.1 + g.lat_range.2) / 2
  let center_lon := (g.lon_range.1 + g.lon_range.2) / 2
  let radius_lat := (g.lat_range.2 - g.lat_range.1) / 3
  let radius_lon := (g.lon_range.2 - g.lon_range.1) / 3
  let dx := Real.cos (t * 2) * radius_lon
  let dy := Real.cos t * radius_lat
  { lat := center_lat + radius_lat * Real.sin t
    lon := center_lon + radius_lon * Real.sin (t * 2)
    alt := 300 + 50 * Real.sin (t * 0.5)
    speed := 15 + 5 * Real.cos t
    vspeed := 2.5 * Real.cos (t * 0.5)
    course := pyMod (degOf (atan2 dx dy)) 360 }

/-- Random draws consumed by generate_drone_cot_with_track. -/
structure DroneDraws where
  mac : String
  freq : ℝ
  seenByNum : ℤ
  ridMake : String
  ridModel : String
  ridSource : String
  idxDraw : ℤ

/-- Fields of the drone CoT event XML (lines 149-159). -/
structure DroneCotMsg where
  uid : String
  type : String
  time : ℤ
  start : ℤ
  stale : ℤ
  how : String
  kin : Kin
  heightAgl : ℝ
  rssi : ℤ
  mac : String
  freq : ℝ
  seenBy : String
  observedAtUs : ℤ
  ridMake : String
  ridModel : String
  ridSource : String

/-- generate_drone_cot_with_track (lines 99-165): advances the drone id
    round-robin (lines 133-135) and renders the CoT event. -/
noncomputable def generate_drone_cot_with_track (g : GenState) (nowUs : ℤ) (s : ℝ)
    (d : DroneDraws) : GenState × DroneCotMsg :=
  let k := droneKin g s
  let idx := (g.current_drone_index + 1) % g.drone_ids.length
  let uid := g.drone_ids.getD idx ""
  ({ g with current_drone_index := idx, current_drone_id := uid },
   { uid := uid
     type := "a-u-A-M-H-R"
     time := nowUs
     start := nowUs
     stale := nowUs + tenMinutesUs
     how := "m-g"
     kin := k
     heightAgl := k.alt - 100
     rssi := -60 + pyInt (10 * Real.sin (s * 0.1))
     mac := d.mac
     freq := d.freq
     seenBy := "wardragon-" ++ toString d.seenByNum
     observedAtUs := nowUs
     ridMake := d.ridMake
     ridModel := d.ridModel
     ridSource := d.ridSource })

/-- Fields of the pilot / home CoT events (lines 188-197 and 220-229). -/
structure DependentCotMsg where
  uid : String
  type : String
  time : ℤ
  start : ℤ
  stale : ℤ
  how : String
  lat : ℝ
  lon : ℝ
  hae : ℝ
  remarksDrone : String

/-- generate_pilot_cot (lines 167-197): slow oval walk, uid derived from the
    current drone id with "drone-" removed (lines 184-186). -/
noncomputable def generate_pilot_cot (g : GenState) (nowUs : ℤ) (s : ℝ) : DependentCotMsg :=
  let t := s * 0.02
  let center_lat := (g.lat_range.1 + g.lat_range.2) / 2
  let center_lon := (g.lon_range.1 + g.lon_range.2) / 2
  let base_id := pyReplace g.current_drone_id "drone-" ""
  { uid := "pilot-" ++ base_id
    type := "b-m-p-s-m"
    time := nowUs
    start := nowUs
    stale := nowUs + tenMinutesUs
    how := "m-g"
    lat := center_lat + 0.002 * Real.sin t
    lon := center_lon + 0.002 * Real.cos (t * 0.7)
    hae := 50 + 2 * Real.sin (t * 0.3)
    remarksDrone := g.current_drone_id }

/-- generate_home_cot (lines 199-229): near-static drift, uid derived from
    the current drone id with "drone-" removed (lines 216-218). -/
noncomputable def generate_home_cot (g : GenState) (nowUs : ℤ) (s : ℝ) : DependentCotMsg :=
  let t := s * 0.01
  let center_lat := (g.lat_range.1 + g.lat_range.2) / 2
  let center_lon := (g.lon_range.1 + g.lon_range.2) / 2
  let base_id := pyReplace g.current_drone_id "drone-" ""
  { uid := "home-" ++ base_id
    type := "b-m-p-s-m"
    time := nowUs
    start := nowUs
    stale := nowUs + tenMinutesUs
    how := "m-g"
    lat := center_lat + 0.001 * Real.sin t
    lon := center_lon + 0.001 * Real.cos t
    hae := 100 + 5 * Real.sin (t * 0.5)
    remarksDrone := g.current_drone_id }

/-- Random draws consumed by generate_status_message (lines 548-587). -/
structure StatusDraws where
  latJit : ℝ
  lonJit : ℝ
  altJit : ℝ
  speed : ℝ
  track : ℝ
  serialNum : ℤ
  cpu : ℝ
  memAvail : ℝ
  diskUsed : ℝ
  temp : ℝ
  plutoTemp : ℝ
  zynqTemp : ℝ

/-- Fields of the system-status CoT event (lines 589-599). -/
structure StatusMsg where
  uid : String
  type : String
  time : ℤ
  start : ℤ
  stale : ℤ
  how : String
  lat : ℝ
  lon : ℝ
  hae : ℝ
  runtime : ℤ
  track : ℝ
  speed : ℝ

/-- generate_status_message (lines 548-601): the stale attribute is computed
    inline as current_time + timedelta(minutes=10) (line 553). -/
noncomputable def generate_status_message (g : GenState) (nowUs : ℤ) (s : ℝ)
    (d : StatusDraws) : StatusMsg :=
  { uid := "wardragon-" ++ toString d.serialNum
    type := "a-f-G-E-S"
    time := nowUs
    start := nowUs
    stale := nowUs + tenMinutesUs
    how := "m-g"
    lat := (g.lat_range.1 + g.lat_range.2) / 2 + d.latJit
    lon := (g.lon_range.1 + g.lon_range.2) / 2 + d.lonJit
    hae := 50 + d.altJit
    runtime := pyInt (s - g.start_time)
    track := d.track
    speed := d.speed }

/-! ### FPV detection / update state machine (lines 231-381) -/

/-- Random draws consumed by generate_fpv_detection_message (lines 243-256). -/
structure FpvDraws where
  frequency : ℤ
  bandwidth : ℤ
  rssi : ℚ
  inst : ℕ
  node : ℕ
deriving DecidableEq

/-- Empirical distance chain of the fresh-detection path and of the update
    path (lines 260-274 and 344-357). -/
def freshDistance (rssi : ℚ) : ℚ :=
  if rssi ≥ 2000 then 10
  else if rssi ≥ 1800 then 25
  else if rssi ≥ 1600 then 50
  else if rssi ≥ 1400 then 100
  else if rssi ≥ 1200 then 300 - (rssi - 1200) * 0.5
  else if rssi ≥ 1000 then 500
  else 1000

/-- Distance chain of the cached-detection path (lines 292-298). -/
def cachedDistance (rssi : ℚ) : ℚ :=
  if rssi ≥ 1400 then 100
  else if rssi ≥ 1200 then 300 - (rssi - 1200) * 0.5
  else 200

/-- Fields of the FPV Detection JSON object (lines 302-316). -/
structure FpvDetectionMsg where
  timestamp : ℤ
  manufacturer : String
  device_type : String
  frequency : ℤ
  bandwidth : String
  signal_strength : ℚ
  detection_source : String
  status : String
  estimated_distance : ℚ
deriving DecidableEq

/-- generate_fpv_detection_message (lines 231-318): creates the detection
    state on first call, reuses the cached record afterwards. -/
def generate_fpv_detection_message (st : Option FpvDetection) (ts : ℤ)
    (d : FpvDraws) : Option FpvDetection × FpvDetectionMsg :=
  match st with
  | none =>
    let source_inst := fmt02 d.inst
    let source_node := hex4 d.node
    let ds := source_inst ++ "-" ++ source_node
    (some { frequency := d.frequency, source_inst := source_inst,
            source_node := source_node, detection_source := ds,
            rssi := d.rssi, time := 0 },
     { timestamp := ts
       manufacturer := source_inst
       device_type := "FPV" ++ toString d.frequency ++ "MHz"
       frequency := d.frequency
       bandwidth := toString d.bandwidth ++ "MHz"
       signal_strength := d.rssi
       detection_source := ds
       status := "NEW CONTACT LOCK"
       estimated_distance := freshDistance d.rssi })
  | some s =>
    (some s,
     { timestamp := ts
       manufacturer := s.source_inst
       device_type := "FPV" ++ toString s.frequency ++ "MHz"
       frequency := s.frequency
       bandwidth := toString d.bandwidth ++ "MHz"
       signal_strength := s.rssi
       detection_source := s.detection_source
       status := "NEW CONTACT LOCK"
       estimated_distance := cachedDistance s.rssi })

/-- Fields of the AUX_ADV_IND FPV update JSON object (lines 363-379). -/
structure FpvUpdateMsg where
  rssi : ℚ
  aa : ℤ
  time : ℤ
  advA : String
  advData : String
  locLat : ℚ
  locLon : ℚ
  distance : ℚ
  frequency : ℤ
deriving DecidableEq

/-- generate_fpv_update_message (lines 320-381): returns None before any
    detection exists (lines 329-330); otherwise drifts the cached rssi by the
    drawn delta and clamps it into 1000-1600 (lines 336-341). -/
def generate_fpv_update_message (st : Option FpvDetection) (ts : ℤ)
    (delta : ℚ) : Option FpvDetection × Option FpvUpdateMsg :=
  match st with
  | none => (none, none)
  | some s =>
    let rssi := max 1000 (min 1600 (s.rssi + delta))
    (some { s with rssi := rssi, time := s.time + 10 },
     some { rssi := rssi
            aa := 2391391958
            time := ts
            advA := s.detection_source ++ " random"
            advData := "020116faff0d01"
            locLat := 0
            locLon := 0
            distance := freshDistance rssi
            frequency := s.frequency })

/-- A call into the FPV half of the generator within one session. -/
inductive FpvOp where
  | det (ts : ℤ) (d : FpvDraws)
  | upd (ts : ℤ) (delta : ℚ)
deriving DecidableEq

/-- A message emitted by the FPV half of the generator. -/
inductive FpvEmit where
  | det (m : FpvDetectionMsg)
  | upd (m : FpvUpdateMsg)
deriving DecidableEq

/-- The source identifier a consumer reads off an emitted FPV message:
    the detection_source field of a detection, the AdvA field of an update. -/
def FpvEmit.src : FpvEmit → String
  | .det m => m.detection_source
  | .upd m => m.advA

/-- The frequency field of an emitted FPV message. -/
def FpvEmit.freq : FpvEmit → ℤ
  | .det m => m.frequency
  | .upd m => m.frequency

/-- Whether an emitted FPV message is an update. -/
def FpvEmit.isUpd : FpvEmit → Bool
  | .det _ => false
  | .upd _ => true

/-- One FPV call against the session state, collecting the emitted message. -/
def fpvStep (st : Option FpvDetection) : FpvOp → Option FpvDetection × List FpvEmit
  | .det ts d =>
    let r := generate_fpv_detection_message st ts d
    (r.1, [.det r.2])
  | .upd ts delta =>
    let r := generate_fpv_update_message st ts delta
    (r.1, match r.2 with | none => [] | some m => [.upd m])

/-- A whole sequence of FPV calls against the session state. -/
def fpvRun (st : Option FpvDetection) : List FpvOp → Option FpvDetection × List FpvEmit
  | [] => (st, [])
  | op :: ops =>
    let r := fpvStep st op
    let rest := fpvRun r.1 ops
    (rest.1, r.2 ++ rest.2)

/-- A sequence of update calls only (claim C1), collecting update messages. -/
def updRun (st : Option FpvDetection) : List (ℤ × ℚ) → Option FpvDetection × List FpvUpdateMsg
  | [] => (st, [])
  | (ts, delta) :: rest =>
    let r := generate_fpv_update_message st ts delta
    let tail := updRun r.1 rest
    (tail.1, (match r.2 with | none => [] | some m => [m]) ++ tail.2)

/-! ### ADSBSimulator (lines 818-891) -/

/-- A persistent synthetic aircraft record created in ADSBSimulator.__init__
    (lines 825-834). -/
structure Aircraft where
  hex : String
  flight : String
  pattern : ℕ
  lane : ℝ
  speed : ℝ
  alt : ℝ
  phase : ℝ

/-- Random draws consumed per aircraft in __init__. -/
structure AircraftDraws where
  hexDraw : ℕ
  speedDraw : ℝ
  phaseDraw : ℝ

/-- One aircraft record of __init__: pattern i mod 3, lane separation growing
    linearly with i, altitude separated by 3000 ft. -/
noncomputable def mkAircraft (i : ℕ) (d : AircraftDraws) : Aircraft :=
  { hex := hex6 d.hexDraw
    flight := "TEST" ++ fmt02 (i + 1)
    pattern := i % 3
    lane := 0.04 + (i : ℝ) * 0.03
    speed := 0.05 + d.speedDraw
    alt := 10000 + (i : ℝ) * 3000
    phase := d.phaseDraw }

/-- ADSBSimulator.__init__(count): creates `count` aircraft records. -/
noncomputable def adsbInit (count : ℕ) (draws : ℕ → AircraftDraws) : List Aircraft :=
  (List.range count).map (fun i => mkAircraft i (draws i))

/-- Latitude offset of the three motion patterns (lines 844-857). -/
noncomputable def latOff (ac : Aircraft) (m : ℝ) : ℝ :=
  if ac.pattern = 0 then ac.lane * Real.sin m
  else if ac.pattern = 1 then ac.lane * Real.sin m
  else (ac.lane * 0.7) * Real.sin m

/-- Longitude offset of the three motion patterns (lines 844-857). -/
noncomputable def lonOff (ac : Aircraft) (m : ℝ) : ℝ :=
  if ac.pattern = 0 then ac.lane * Real.cos m
  else if ac.pattern = 1 then (ac.lane * 1.5) * Real.sin (2 * m) / 2
  else (ac.lane * 1.8) * Real.cos m

/-- Track of one aircraft at wall clock t: finite-difference look-ahead with
    dt = 0.01 followed by degrees and % 360 (lines 859-872). -/
noncomputable def trackOf (ac : Aircraft) (t : ℝ) : ℝ :=
  let m := t * ac.speed + ac.phase
  pyMod (degOf (atan2 (lonOff ac (m + 0.01) - lonOff ac m)
                      (latOff ac (m + 0.01) - latOff ac m))) 360

/-- One aircraft object of the aircraft.json snapshot (lines 874-885). -/
structure AircraftOut where
  hex : String
  flight : String
  alt_baro : ℝ
  gs : ℝ
  track : ℝ
  lat : ℝ
  lon : ℝ
  seen : ℝ
  rssi : ℝ
  category : String

/-- Center of operations of the simulator (lines 822-823). -/
noncomputable def adsbCenterLat : ℝ := 37.24

/-- Center of operations of the simulator (lines 822-823). -/
noncomputable def adsbCenterLon : ℝ := -115.81

/-- The snapshot entry of one aircraft at wall clock t. -/
noncomputable def aircraftJsonOne (ac : Aircraft) (t : ℝ) : AircraftOut :=
  let m := t * ac.speed + ac.phase
  { hex := ac.hex
    flight := ac.flight
    alt_baro := ac.alt
    gs := 200 + ac.lane * 1000
    track := pyRound 1 (trackOf ac t)
    lat := pyRound 6 (adsbCenterLat + latOff ac m)
    lon := pyRound 6 (adsbCenterLon + lonOff ac m)
    seen := 0.1
    rssi := -18.5
    category := "A1" }

/-- The aircraft.json snapshot (lines 836-891). -/
structure AdsbSnapshot where
  now : ℝ
  messages : ℤ
  aircraft : List AircraftOut

/-- ADSBSimulator.get_aircraft_json at wall clock t. -/
noncomputable def get_aircraft_json (fleet : List Aircraft) (t : ℝ) : AdsbSnapshot :=
  { now := t
    messages := 123456
    aircraft := fleet.map (fun ac => aircraftJsonOne ac t) }

end Tests

namespace Util

/-! ## src/Util/testscript.py : DroneMessageGenerator -/

/-- Mutable FPV detection state of the Util variant (lines 156-169): no
    elapsed-time counter, fixed channel and source. -/
structure FpvDetection where
  frequency : ℤ
  source_inst : String
  source_node : String
  detection_source : String
  rssi : ℚ
deriving DecidableEq

/-- Session state of the Util variant (lines 23-31): current_drone_id is set
    once in __init__ from randint(100, 100) and never reassigned. -/
structure GenState where
  lat_range : ℝ × ℝ
  lon_range : ℝ × ℝ
  msg_index : ℕ
  start_time : ℝ
  current_drone_id : String
  fpv : Option FpvDetection

/-- __init__ of the Util variant; randint(100, 100) always draws 100. -/
def initState (s0 : ℝ) : GenState :=
  { lat_range := (37.2, 37.3)
    lon_range := (-115.8, -115.7)
    msg_index := 0
    start_time := s0
    current_drone_id := "100"
    fpv := none }

/-- The uid emitted by the Util drone CoT (line 80): the f-string rendering
    of the randint(100, 100) draw. -/
def droneUid (d : ℤ) : String := toString d

/-- generate_pilot_cot of the Util variant (lines 95-117): random jitter
    around the center, uid from current_drone_id with "drone-" removed. -/
noncomputable def generate_pilot_cot (g : GenState) (nowUs : ℤ)
    (latJit lonJit altJit : ℝ) : Tests.DependentCotMsg :=
  let center_lat := (g.lat_range.1 + g.lat_range.2) / 2
  let center_lon := (g.lon_range.1 + g.lon_range.2) / 2
  let base_id := pyReplace g.current_drone_id "drone-" ""
  { uid := "pilot-" ++ base_id
    type := "b-m-p-s-m"
    time := nowUs
    start := nowUs
    stale := nowUs + tenMinutesUs
    how := "m-g"
    lat := center_lat + latJit
    lon := center_lon + lonJit
    hae := 50 + altJit
    remarksDrone := g.current_drone_id }

/-- Fields of the Util FPV Detection JSON object (lines 171-181). -/
structure FpvDetectionMsg where
  timestamp : ℤ
  frequency : ℤ
  bandwidth : String
  signal_strength : ℚ
  detection_source : String
deriving DecidableEq

/-- generate_fpv_detection_message of the Util variant (lines 143-183):
    fixed channel 5645, source "01-6914", rssi drawn from randint(1250, 3500)
    on creation, cached afterwards. -/
def generate_fpv_detection_message (st : Option FpvDetection) (ts : ℤ)
    (rssiDraw : ℚ) : Option FpvDetection × FpvDetectionMsg :=
  match st with
  | none =>
    (some { frequency := 5645, source_inst := "01", source_node := "6914",
            detection_source := "01-6914", rssi := rssiDraw },
     { timestamp := ts
       frequency := 5645
       bandwidth := "20 MHz"
       signal_strength := rssiDraw
       detection_source := "01-6914" })
  | some s =>
    (some s,
     { timestamp := ts
       frequency := s.frequency
       bandwidth := "20 MHz"
       signal_strength := s.rssi
       detection_source := s.detection_source })

/-- Fields of the Util AUX_ADV_IND update JSON object (lines 197-207). -/
structure FpvUpdateMsg where
  rssi : ℚ
  aa : ℤ
  time : ℤ
  advA : String
  frequency : ℤ
deriving DecidableEq

/-- generate_fpv_update_message of the Util variant (lines 185-209): returns
    None before any detection exists; otherwise adds the drawn uniform(-5, 5)
    delta to the cached rssi with NO clamping (lines 194-195). -/
def generate_fpv_update_message (st : Option FpvDetection) (ts : ℤ)
    (delta : ℚ) : Option FpvDetection × Option FpvUpdateMsg :=
  match st with
  | none => (none, none)
  | some s =>
    let rssi := s.rssi + delta
    (some { s with rssi := rssi },
     some { rssi := rssi
            aa := 2391391958
            time := ts
            advA := s.detection_source
            frequency := 5645 })

/-- Course of generate_esp32_format of the Util variant (lines 270-277):
    direction of motion turned 90 degrees left, then % 360, with
    t = time.time() * 0.1 and the fixed __init__ coordinate ranges. -/
noncomputable def esp32Course (s : ℝ) : ℝ :=
  let t := s * 0.1
  let radius_lat : ℝ := (37.3 - 37.2) / 3
  let radius_lon : ℝ := (-115.7 - (-115.8)) / 3
  let let_dx := radius_lon * Real.cos (2 * t)
  let let_dy := radius_lat * Real.cos t
  pyMod (degOf (atan2 let_dx let_dy) - 90) 360

end Util

/-! ## Definitions stated from the spec's words, for comparison (claim C3) -/

/-- The angular rate of the drone pattern: the code scales wall-clock seconds
    by 0.1 (line 106 of src/Tests/testscript.py). -/
noncomputable def omegaRate : ℝ := 0.1

/-- Stated from the spec's words for claim C3: the longitude component
    lon(t) = center_lon + R_lon * sin(2 omega t), with the fixed __init__
    center and radius of the Tests variant. -/
noncomputable def specLonAt (s : ℝ) : ℝ :=
  ((-115.8) + (-115.7)) / 2 + ((-115.7) - (-115.8)) / 3 * Real.sin (2 * omegaRate * s)

/-- Stated from the spec's words for claim C3: the latitude component
    lat(t) = center_lat + R_lat * sin(omega t). -/
noncomputable def specLatAt (s : ℝ) : ℝ :=
  (37.2 + 37.3) / 2 + (37.3 - 37.2) / 3 * Real.sin (omegaRate * s)

/-- Stated from the spec's words for claim C3: the course obtained from the
    analytic time-derivatives of the longitude and latitude components,
    course = atan2(dx, dy) in degrees mod 360. -/
noncomputable def specCourse (s : ℝ) : ℝ :=
  pyMod (degOf (atan2 (deriv specLonAt s) (deriv specLatAt s))) 360

/-! ## Concrete example inputs used by witnesses and counterexamples -/

/-- A fixed draw record for the drone CoT generator. -/
def drawsC2 : Tests.DroneDraws :=
  { mac := "", freq := 0, seenByNum := 0, ridMake := "", ridModel := "",
    ridSource := "", idxDraw := 0 }

/-- A fixed draw record for the drone CoT generator. -/
def drawsC10a : Tests.DroneDraws :=
  { mac := "AA:BB:CC:DD:EE:FF", freq := 5800000000, seenByNum := 150,
    ridMake := "DJI", ridModel := "Mavic 3", ridSource := "FAA", idxDraw := 42 }

/-- A second, different draw record for the drone CoT generator. -/
def drawsC10b : Tests.DroneDraws :=
  { mac := "00:11:22:33:44:55", freq := 5750000000, seenByNum := 101,
    ridMake := "Autel", ridModel := "EVO II", ridSource := "CAA", idxDraw := 7 }

/-- A generator state that differs from the fresh one in every mutable field
    while keeping the two coordinate ranges. -/
def gAltC10 : Tests.GenState :=
  { Tests.initState 0 with
    current_drone_index := 2
    current_drone_id := "1869600XXYYZZ"
    msg_index := 7
    fpv := some { frequency := 5645, source_inst := "01", source_node := "6914",
                  detection_source := "01-6914", rssi := 1300, time := 0 } }

/-- A legal FPV detection draw (rssi within randint(1200, 1400)). -/
def fpvDrawsC1 : Tests.FpvDraws :=
  { frequency := 5645, bandwidth := 20, rssi := 1300, inst := 1, node := 4321 }

/-- Two update calls, one drifting up, one with a large negative delta. -/
def updListC1 : List (ℤ × ℚ) := [(10, 30), (20, -900)]

/-- A legal FPV detection draw for the C4 witness. -/
def fpvDrawsC4 : Tests.FpvDraws :=
  { frequency := 5785, bandwidth := 40, rssi := 1350, inst := 2, node := 1234 }

/-- A second detection draw used after the session already holds a lock. -/
def fpvDrawsC4b : Tests.FpvDraws :=
  { frequency := 5805, bandwidth := 20, rssi := 1210, inst := 3, node := 2000 }

/-- One further detection call after the initial lock. -/
def fpvOpsC4 : List Tests.FpvOp := [Tests.FpvOp.det 9 fpvDrawsC4b]

/-- The message that second detection call emits. -/
def fpvEmitC4 : Tests.FpvEmit :=
  Tests.FpvEmit.det
    (Tests.generate_fpv_detection_message
      (Tests.generate_fpv_detection_message none 0 fpvDrawsC4).1 9 fpvDrawsC4b).2

/-- Aircraft draws where two aircraft receive the same legal hex draw
    0xABCDEF = 11259375. -/
def adsbDrawsDup : ℕ → Tests.AircraftDraws :=
  fun _ => { hexDraw := 11259375, speedDraw := 0.03, phaseDraw := 0 }

/-! ## Helper lemmas -/

/-- Python float modulo by a positive modulus is nonnegative. -/
theorem pyMod_nonneg (x : ℝ) {m : ℝ} (hm : 0 < m) : 0 ≤ pyMod x m := by
  unfold pyMod
  rw [mul_comm]
  exact Int.sub_floor_div_mul_nonneg x hm

/-- Python float modulo by a positive modulus is below the modulus. -/
theorem pyMod_lt (x : ℝ) {m : ℝ} (hm : 0 < m) : pyMod x m < m := by
  unfold pyMod
  rw [mul_comm]
  exact Int.sub_floor_div_mul_lt x hm

/-- Python float modulo is the identity on [0, m). -/
theorem pyMod_eq_self {x m : ℝ} (h0 : 0 ≤ x) (hm : 0 < m) (hx : x < m) :
    pyMod x m = x := by
  unfold pyMod
  have hfl : ⌊x / m⌋ = 0 :=
    Int.floor_eq_zero_iff.mpr ⟨div_nonneg h0 hm.le, (div_lt_one hm).mpr hx⟩
  rw [hfl]
  simp

/-- The Tests drone CoT call leaves the id pool unchanged. -/
theorem gen_drone_ids (g : Tests.GenState) (n : ℤ) (s : ℝ) (e : Tests.DroneDraws) :
    (Tests.generate_drone_cot_with_track g n s e).1.drone_ids = g.drone_ids := rfl

/-- The Tests drone CoT call advances the round-robin index. -/
theorem gen_drone_index (g : Tests.GenState) (n : ℤ) (s : ℝ) (e : Tests.DroneDraws) :
    (Tests.generate_drone_cot_with_track g n s e).1.current_drone_index
      = (g.current_drone_index + 1) % g.drone_ids.length := rfl

/-- The uid a Tests drone CoT call emits. -/
theorem gen_drone_uid (g : Tests.GenState) (n : ℤ) (s : ℝ) (e : Tests.DroneDraws) :
    (Tests.generate_drone_cot_with_track g n s e).2.uid
      = g.drone_ids.getD ((g.current_drone_index + 1) % g.drone_ids.length) "" := rfl

/-! ## Claim theorems -/

/-- C5: for every time and every pattern kind the computed heading value is
    in [0, 360): the drone CoT course, the Util ESP32-format direction, and
    the ADS-B track of every aircraft (hence of each of the three patterns
    circle, figure-eight, wide ellipse). -/
theorem c5_heading_range :
    ∀ (g : Tests.GenState) (s : ℝ) (ac : Tests.Aircraft) (t : ℝ),
      (0 ≤ (Tests.droneKin g s).course ∧ (Tests.droneKin g s).course < 360) ∧
      (0 ≤ Util.esp32Course s ∧ Util.esp32Course s < 360) ∧
      (0 ≤ Tests.trackOf ac t ∧ Tests.trackOf ac t < 360) := by
  intro g s ac t
  refine ⟨⟨?_, ?_⟩, ⟨?_, ?_⟩, ⟨?_, ?_⟩⟩ <;>
    first
      | exact pyMod_nonneg _ (by norm_num)
      | exact pyMod_lt _ (by norm_num)

/-- C6: for every encoded CoT event (drone, pilot, home, system-status) the
    stale timestamp equals the time timestamp plus exactly ten minutes. -/
theorem c6_stale_offset :
    ∀ (g : Tests.GenState) (nowUs : ℤ) (s : ℝ) (d : Tests.DroneDraws)
      (sd : Tests.StatusDraws),
      ((Tests.generate_drone_cot_with_track g nowUs s d).2.stale
          = (Tests.generate_drone_cot_with_track g nowUs s d).2.time + tenMinutesUs) ∧
      ((Tests.generate_pilot_cot g nowUs s).stale
          = (Tests.generate_pilot_cot g nowUs s).time + tenMinutesUs) ∧
      ((Tests.generate_home_cot g nowUs s).stale
          = (Tests.generate_home_cot g nowUs s).time + tenMinutesUs) ∧
      ((Tests.generate_status_message g nowUs s sd).stale
          = (Tests.generate_status_message g nowUs s sd).time + tenMinutesUs) ∧
      (∀ (gu : Util.GenState) (a b c : ℝ),
        (Util.generate_pilot_cot gu nowUs a b c).stale
          = (Util.generate_pilot_cot gu nowUs a b c).time + tenMinutesUs) :=
  fun _ _ _ _ _ => ⟨rfl, rfl, rfl, rfl, fun _ _ _ _ => rfl⟩

/-- C9: in both script variants, requesting an FPV update before any
    detection has been issued yields no message at all (and leaves the
    absent state absent). -/
theorem c9_update_before_detection :
    ∀ (ts : ℤ) (delta : ℚ),
      Tests.generate_fpv_update_message none ts delta = (none, none) ∧
      Util.generate_fpv_update_message none ts delta = (none, none) :=
  fun _ _ => ⟨rfl, rfl⟩

/-- C10: the drone kinematics (lat, lon, alt, speed, vspeed, course) emitted
    by two drone CoT calls at the same wall-clock time agree whenever the two
    session states carry the same fixed pattern parameters, whatever the
    mutable counters, FPV lock state, and random draws are. -/
theorem c10_kinematics_deterministic :
    ∀ (g1 g2 : Tests.GenState) (n1 n2 : ℤ) (s : ℝ) (d1 d2 : Tests.DroneDraws),
      g1.lat_range = g2.lat_range → g1.lon_range = g2.lon_range →
      (Tests.generate_drone_cot_with_track g1 n1 s d1).2.kin
        = (Tests.generate_drone_cot_with_track g2 n2 s d2).2.kin := by
  intro g1 g2 n1 n2 s d1 d2 h1 h2
  show Tests.droneKin g1 s = Tests.droneKin g2 s
  unfold Tests.droneKin
  rw [h1, h2]

/-- Witness for C10 at two concrete states differing in all mutable fields. -/
theorem c10_kinematics_deterministic_witness :
    (Tests.initState 0).lat_range = gAltC10.lat_range ∧
    (Tests.initState 0).lon_range = gAltC10.lon_range ∧
    (Tests.generate_drone_cot_with_track (Tests.initState 0) 0 5 drawsC10a).2.kin
      = (Tests.generate_drone_cot_with_track gAltC10 7 5 drawsC10b).2.kin :=
  ⟨rfl, rfl, c10_kinematics_deterministic _ _ _ _ _ _ _ rfl rfl⟩

/-- C8 amended: every ADS-B snapshot contains exactly one record per aircraft
    created at simulator startup, i.e. exactly `count` records. -/
theorem c8_snapshot_count :
    ∀ (count : ℕ) (draws : ℕ → Tests.AircraftDraws) (t : ℝ),
      (Tests.get_aircraft_json (Tests.adsbInit count draws) t).aircraft.length
        = count := by
  intro count draws t
  simp [Tests.get_aircraft_json, Tests.adsbInit]

/-- C8 counterexample: with two aircraft whose hex draws are both the legal
    value 0xABCDEF, the snapshot's hex IDs are not pairwise distinct, so the
    uniqueness half of the claim fails. -/
theorem c8_counterexample :
    (1048576 ≤ 11259375 ∧ 11259375 ≤ 16777215) ∧
    ((Tests.get_aircraft_json (Tests.adsbInit 2 adsbDrawsDup) 0).aircraft.map
        Tests.AircraftOut.hex = ["ABCDEF", "ABCDEF"]) ∧
    ¬ ((Tests.get_aircraft_json (Tests.adsbInit 2 adsbDrawsDup) 0).aircraft.map
        Tests.AircraftOut.hex).Pairwise (· ≠ ·) := by
  have hmap : (Tests.get_aircraft_json (Tests.adsbInit 2 adsbDrawsDup) 0).aircraft.map
      Tests.AircraftOut.hex = ["ABCDEF", "ABCDEF"] := by decide
  refine ⟨by norm_num, hmap, ?_⟩
  intro h
  rw [hmap] at h
  simp [List.pairwise_cons] at h

/-- Once the Tests FPV state holds rssi within the clamp range, any sequence
    of update calls keeps the state rssi and every emitted update rssi within
    the clamp range 1000-1600. -/
theorem updRun_bounds (s : Tests.FpvDetection)
    (h1 : 1000 ≤ s.rssi) (h2 : s.rssi ≤ 1600) (us : List (ℤ × ℚ)) :
    ∃ s2 : Tests.FpvDetection,
      (Tests.updRun (some s) us).1 = some s2 ∧ 1000 ≤ s2.rssi ∧ s2.rssi ≤ 1600 ∧
      ∀ m ∈ (Tests.updRun (some s) us).2, 1000 ≤ m.rssi ∧ m.rssi ≤ 1600 := by
  induction us generalizing s with
  | nil => exact ⟨s, rfl, h1, h2, by simp [Tests.updRun]⟩
  | cons p rest ih =>
    obtain ⟨ts, delta⟩ := p
    have hlo : (1000 : ℚ) ≤ max 1000 (min 1600 (s.rssi + delta)) := le_max_left _ _
    have hhi : max 1000 (min 1600 (s.rssi + delta)) ≤ 1600 :=
      max_le (by norm_num) (min_le_left _ _)
    obtain ⟨s2, hs2, hb1, hb2, hmsg⟩ :=
      ih { s with rssi := max 1000 (min 1600 (s.rssi + delta)), time := s.time + 10 }
        hlo hhi
    refine ⟨s2, ?_, hb1, hb2, ?_⟩
    · simpa [Tests.updRun, Tests.generate_fpv_update_message] using hs2
    · intro m hm
      simp only [Tests.updRun, Tests.generate_fpv_update_message,
        List.singleton_append, List.mem_cons] at hm
      rcases hm with hm | hm
      · subst hm
        exact ⟨hlo, hhi⟩
      · exact hmsg m hm

/-- C1 amended: in the Tests variant (the raw-ADC variant with the clamp),
    once a detection has been issued, after any finite number of update calls
    the detection state's signal strength, and the rssi of every update
    message, lie within the clamp bounds 1000-1600.  (The counterexample
    shows the Util variant, which drifts without a clamp, violates the
    original claim.) -/
theorem c1_clamped_invariant (d : Tests.FpvDraws) (ts0 : ℤ) (us : List (ℤ × ℚ))
    (h1 : 1200 ≤ d.rssi) (h2 : d.rssi ≤ 1400) :
    ∃ s2 : Tests.FpvDetection,
      (Tests.updRun (Tests.generate_fpv_detection_message none ts0 d).1 us).1
        = some s2 ∧
      1000 ≤ s2.rssi ∧ s2.rssi ≤ 1600 ∧
      ∀ m ∈ (Tests.updRun (Tests.generate_fpv_detection_message none ts0 d).1 us).2,
        1000 ≤ m.rssi ∧ m.rssi ≤ 1600 := by
  have h := updRun_bounds
    { frequency := d.frequency, source_inst := fmt02 d.inst, source_node := hex4 d.node,
      detection_source := fmt02 d.inst ++ "-" ++ hex4 d.node, rssi := d.rssi, time := 0 }
    (by exact le_trans (by norm_num) h1) (le_trans h2 (by norm_num)) us
  simpa [Tests.generate_fpv_detection_message] using h

/-- Witness for C1's amended theorem at a concrete legal draw and two
    concrete update deltas. -/
theorem c1_clamped_invariant_witness :
    (1200 ≤ fpvDrawsC1.rssi ∧ fpvDrawsC1.rssi ≤ 1400) ∧
    ∃ s2 : Tests.FpvDetection,
      (Tests.updRun (Tests.generate_fpv_detection_message none 0 fpvDrawsC1).1
          updListC1).1 = some s2 ∧
      1000 ≤ s2.rssi ∧ s2.rssi ≤ 1600 ∧
      ∀ m ∈ (Tests.updRun (Tests.generate_fpv_detection_message none 0 fpvDrawsC1).1
          updListC1).2,
        1000 ≤ m.rssi ∧ m.rssi ≤ 1600 :=
  ⟨⟨by decide, by decide⟩, c1_clamped_invariant fpvDrawsC1 0 updListC1 (by decide) (by decide)⟩

/-- C1 counterexample: in the Util variant an FPV detection may lock with the
    legal draw rssi = 3000 (randint(1250, 3500)); one later update call with
    the legal delta 2 emits rssi = 3002, which is outside the claimed clamp
    bounds 1000-1600 (the Util update has no clamp at all). -/
theorem c1_counterexample :
    ((1250 : ℚ) ≤ 3000 ∧ (3000 : ℚ) ≤ 3500) ∧
    (Util.generate_fpv_update_message
        (Util.generate_fpv_detection_message none 0 3000).1 10 2).2
      = some { rssi := 3002, aa := 2391391958, time := 10,
               advA := "01-6914", frequency := 5645 } ∧
    ¬ ((1000 : ℚ) ≤ 3002 ∧ (3002 : ℚ) ≤ 1600) := by
  refine ⟨by norm_num, ?_, by norm_num⟩
  norm_num [Util.generate_fpv_detection_message, Util.generate_fpv_update_message]

/-- Any sequence of FPV calls starting from an existing detection record
    preserves the record's detection_source and frequency, and every emitted
    message carries them (updates with the " random" suffix of the AdvA
    field). -/
theorem fpvRun_source_stable (s : Tests.FpvDetection) (ops : List Tests.FpvOp) :
    ∃ s2 : Tests.FpvDetection,
      (Tests.fpvRun (some s) ops).1 = some s2 ∧
      s2.detection_source = s.detection_source ∧ s2.frequency = s.frequency ∧
      ∀ e ∈ (Tests.fpvRun (some s) ops).2,
        Tests.FpvEmit.freq e = s.frequency ∧
        Tests.FpvEmit.src e
          = (if Tests.FpvEmit.isUpd e then s.detection_source ++ " random"
             else s.detection_source) := by
  induction ops generalizing s with
  | nil => exact ⟨s, rfl, rfl, rfl, by simp [Tests.fpvRun]⟩
  | cons op rest ih =>
    cases op with
    | det ts d =>
      obtain ⟨s2, h1, h2, h3, h4⟩ := ih s
      refine ⟨s2, ?_, h2, h3, ?_⟩
      · simpa [Tests.fpvRun, Tests.fpvStep, Tests.generate_fpv_detection_message]
          using h1
      · intro e he
        simp only [Tests.fpvRun, Tests.fpvStep, Tests.generate_fpv_detection_message,
          List.cons_append, List.nil_append, List.mem_cons] at he
        rcases he with he | he
        · subst he
          exact ⟨rfl, rfl⟩
        · exact h4 e he
    | upd ts delta =>
      obtain ⟨s2, h1, h2, h3, h4⟩ :=
        ih { s with rssi := max 1000 (min 1600 (s.rssi + delta)), time := s.time + 10 }
      refine ⟨s2, ?_, h2, h3, ?_⟩
      · simpa [Tests.fpvRun, Tests.fpvStep, Tests.generate_fpv_update_message]
          using h1
      · intro e he
        simp only [Tests.fpvRun, Tests.fpvStep, Tests.generate_fpv_update_message,
          List.cons_append, List.nil_append, List.mem_cons] at he
        rcases he with he | he
        · subst he
          exact ⟨rfl, rfl⟩
        · exact h4 e he

/-- C4: once the FPV detection state has been created by a first detection
    call, every subsequent FPV detection or update message of the session
    carries exactly the detection_source and frequency of that first
    detection message (updates reference the source through the AdvA field
    "source random"). -/
theorem c4_fpv_source_immutable (ts0 : ℤ) (d : Tests.FpvDraws)
    (ops : List Tests.FpvOp) :
    ∀ e ∈ (Tests.fpvRun (Tests.generate_fpv_detection_message none ts0 d).1 ops).2,
      Tests.FpvEmit.freq e
        = (Tests.generate_fpv_detection_message none ts0 d).2.frequency ∧
      Tests.FpvEmit.src e
        = (if Tests.FpvEmit.isUpd e
           then (Tests.generate_fpv_detection_message none ts0 d).2.detection_source
                  ++ " random"
           else (Tests.generate_fpv_detection_message none ts0 d).2.detection_source) := by
  have h := fpvRun_source_stable
    { frequency := d.frequency, source_inst := fmt02 d.inst, source_node := hex4 d.node,
      detection_source := fmt02 d.inst ++ "-" ++ hex4 d.node, rssi := d.rssi, time := 0 }
    ops
  obtain ⟨s2, _, _, _, h4⟩ := h
  exact h4

/-- Witness for C4: a session that locks on, then issues a second detection
    call; the second message carries the first message's source and
    frequency. -/
theorem c4_fpv_source_immutable_witness :
    fpvEmitC4 ∈ (Tests.fpvRun
        (Tests.generate_fpv_detection_message none 0 fpvDrawsC4).1 fpvOpsC4).2 ∧
    (Tests.FpvEmit.freq fpvEmitC4
        = (Tests.generate_fpv_detection_message none 0 fpvDrawsC4).2.frequency ∧
     Tests.FpvEmit.src fpvEmitC4
        = (if Tests.FpvEmit.isUpd fpvEmitC4
           then (Tests.generate_fpv_detection_message none 0 fpvDrawsC4).2.detection_source
                  ++ " random"
           else (Tests.generate_fpv_detection_message none 0 fpvDrawsC4).2.detection_source)) :=
  ⟨List.mem_singleton_self fpvEmitC4,
   c4_fpv_source_immutable 0 fpvDrawsC4 fpvOpsC4 fpvEmitC4
     (List.mem_singleton_self fpvEmitC4)⟩

/-- C2 counterexample: in the Tests variant, two consecutive drone CoT calls
    within one session emit different uids ("3NZDJ1Y0010ABC" and then
    "1869600XXYYZZ"): the generator cycles its id pool on every call, so the
    uid is not stable across a broadcast session. -/
theorem c2_counterexample :
    (Tests.generate_drone_cot_with_track (Tests.initState 0) 0 0 drawsC2).2.uid ≠
    (Tests.generate_drone_cot_with_track
        (Tests.generate_drone_cot_with_track (Tests.initState 0) 0 0 drawsC2).1
        0 0 drawsC2).2.uid := by
  decide

/-- C2 amended: the uid is drawn deterministically, not freshly at random: in
    the Util variant it is the rendering of randint(100, 100), hence the same
    ("100") for every pair of calls; in the Tests variant it cycles
    round-robin through the fixed three-element pool, so every call and the
    call three positions later emit the same uid. -/
theorem c2_uid_cycle :
    (∀ d1 d2 : ℤ, 100 ≤ d1 → d1 ≤ 100 → 100 ≤ d2 → d2 ≤ 100 →
        Util.droneUid d1 = Util.droneUid d2) ∧
    (∀ (g : Tests.GenState) (n1 n2 n3 n4 : ℤ) (s1 s2 s3 s4 : ℝ)
        (e1 e2 e3 e4 : Tests.DroneDraws),
        g.drone_ids.length = 3 →
        (Tests.generate_drone_cot_with_track
          ((Tests.generate_drone_cot_with_track
            ((Tests.generate_drone_cot_with_track
              ((Tests.generate_drone_cot_with_track g n1 s1 e1).1) n2 s2 e2).1)
            n3 s3 e3).1) n4 s4 e4).2.uid
        = (Tests.generate_drone_cot_with_track g n1 s1 e1).2.uid) := by
  constructor
  · intro d1 d2 h1 h2 h3 h4
    have e1 : d1 = 100 := le_antisymm h2 h1
    have e2 : d2 = 100 := le_antisymm h4 h3
    rw [e1, e2]
  · intro g n1 n2 n3 n4 s1 s2 s3 s4 e1 e2 e3 e4 hlen
    simp only [gen_drone_uid, gen_drone_index, gen_drone_ids, hlen]
    congr 1
    omega

/-- Witness for C2's amended theorem: the Util uid at the only possible draw,
    and four consecutive Tests calls from the fresh state. -/
theorem c2_uid_cycle_witness :
    (Util.droneUid 100 = Util.droneUid 100) ∧
    ((Tests.initState 0).drone_ids.length = 3 ∧
     (Tests.generate_drone_cot_with_track
        ((Tests.generate_drone_cot_with_track
          ((Tests.generate_drone_cot_with_track
            ((Tests.generate_drone_cot_with_track (Tests.initState 0) 0 0 drawsC2).1)
            0 0 drawsC2).1) 0 0 drawsC2).1) 0 0 drawsC2).2.uid
      = (Tests.generate_drone_cot_with_track (Tests.initState 0) 0 0 drawsC2).2.uid) :=
  ⟨c2_uid_cycle.1 100 100 le_rfl le_rfl le_rfl le_rfl,
   rfl,
   c2_uid_cycle.2 (Tests.initState 0) 0 0 0 0 0 0 0 0
     drawsC2 drawsC2 drawsC2 drawsC2 rfl⟩

/-- C7: every pilot CoT uid is exactly "pilot-" ++ base and every home CoT
    uid is exactly "home-" ++ base, where base is the current owning drone's
    identity with any "drone-" tag stripped; this holds for every drone
    identity reachable in the Tests session (the fixed three-element pool)
    and for the Util session's fixed identity "100". -/
theorem c7_dependent_uids :
    (∀ (g : Tests.GenState) (nowUs : ℤ) (s : ℝ),
        g.current_drone_id ∈ Tests.droneIds0 →
        (Tests.generate_pilot_cot g nowUs s).uid
            = "pilot-" ++ dropDroneTag g.current_drone_id ∧
        (Tests.generate_home_cot g nowUs s).uid
            = "home-" ++ dropDroneTag g.current_drone_id) ∧
    (∀ (g : Util.GenState) (nowUs : ℤ) (a b c : ℝ),
        g.current_drone_id = "100" →
        (Util.generate_pilot_cot g nowUs a b c).uid
            = "pilot-" ++ dropDroneTag g.current_drone_id) := by
  constructor
  · intro g nowUs s hmem
    constructor
    · show "pilot-" ++ pyReplace g.current_drone_id "drone-" ""
          = "pilot-" ++ dropDroneTag g.current_drone_id
      simp only [Tests.droneIds0, List.mem_cons, List.not_mem_nil, or_false] at hmem
      rcases hmem with h | h | h <;> rw [h] <;> decide
    · show "home-" ++ pyReplace g.current_drone_id "drone-" ""
          = "home-" ++ dropDroneTag g.current_drone_id
      simp only [Tests.droneIds0, List.mem_cons, List.not_mem_nil, or_false] at hmem
      rcases hmem with h | h | h <;> rw [h] <;> decide
  · intro g nowUs a b c h
    show "pilot-" ++ pyReplace g.current_drone_id "drone-" ""
        = "pilot-" ++ dropDroneTag g.current_drone_id
    rw [h]
    decide

/-- Witness for C7 at the fresh Tests state, whose current drone identity is
    the first pool element. -/
theorem c7_dependent_uids_witness :
    (Tests.initState 0).current_drone_id ∈ Tests.droneIds0 ∧
    ((Tests.generate_pilot_cot (Tests.initState 0) 0 0).uid
        = "pilot-" ++ dropDroneTag (Tests.initState 0).current_drone_id ∧
     (Tests.generate_home_cot (Tests.initState 0) 0 0).uid
        = "home-" ++ dropDroneTag (Tests.initState 0).current_drone_id) :=
  ⟨by decide, c7_dependent_uids.1 (Tests.initState 0) 0 0 (by decide)⟩

/-- The atan2 of a point with positive x-coordinate is arctan (y / x). -/
theorem atan2_of_pos {y x : ℝ} (hx : 0 < x) : atan2 y x = Real.arctan (y / x) := by
  unfold atan2
  rw [if_pos hx]

/-- Degrees conversion is strictly monotone. -/
theorem degOf_strictMono : StrictMono degOf := by
  intro a b h
  unfold degOf
  have hpi := Real.pi_pos
  rw [div_lt_div_iff_of_pos_right hpi]
  nlinarith

/-- Degrees of a quarter turn. -/
theorem degOf_pi_div_four : degOf (Real.pi / 4) = 45 := by
  unfold degOf
  field_simp
  ring

/-- Degrees of a half turn. -/
theorem degOf_pi_div_two : degOf (Real.pi / 2) = 90 := by
  unfold degOf
  field_simp
  ring

/-- Derivative of the spec's longitude component. -/
theorem specLonAt_hasDeriv (s : ℝ) :
    HasDerivAt specLonAt
      (((-115.7 : ℝ) - (-115.8)) / 3 * (Real.cos (2 * omegaRate * s) * (2 * omegaRate)))
      s := by
  have hlin : HasDerivAt (fun x : ℝ => 2 * omegaRate * x) (2 * omegaRate) s := by
    simpa using (hasDerivAt_id s).const_mul (2 * omegaRate)
  exact (hlin.sin.const_mul (((-115.7 : ℝ) - (-115.8)) / 3)).const_add
    (((-115.8 : ℝ) + (-115.7)) / 2)

/-- Derivative of the spec's latitude component. -/
theorem specLatAt_hasDeriv (s : ℝ) :
    HasDerivAt specLatAt
      (((37.3 : ℝ) - 37.2) / 3 * (Real.cos (omegaRate * s) * omegaRate)) s := by
  have hlin : HasDerivAt (fun x : ℝ => omegaRate * x) omegaRate s := by
    simpa using (hasDerivAt_id s).const_mul omegaRate
  exact (hlin.sin.const_mul (((37.3 : ℝ) - 37.2) / 3)).const_add
    (((37.2 : ℝ) + 37.3) / 2)

/-- The deriv form of the spec's longitude derivative. -/
theorem deriv_specLonAt (s : ℝ) :
    deriv specLonAt s
      = ((-115.7 : ℝ) - (-115.8)) / 3 * (Real.cos (2 * omegaRate * s) * (2 * omegaRate)) :=
  (specLonAt_hasDeriv s).deriv

/-- The deriv form of the spec's latitude derivative. -/
theorem deriv_specLatAt (s : ℝ) :
    deriv specLatAt s
      = ((37.3 : ℝ) - 37.2) / 3 * (Real.cos (omegaRate * s) * omegaRate) :=
  (specLatAt_hasDeriv s).deriv

/-- The drone course the Tests code emits at wall clock 0 is exactly 45
    degrees: both cosine factors are 1 and the two radii are equal. -/
theorem droneKin_course_at_zero :
    (Tests.droneKin (Tests.initState 0) 0).course = 45 := by
  show pyMod (degOf (atan2 (Real.cos ((0 : ℝ) * 0.1 * 2) * (((-115.7 : ℝ) - -115.8) / 3))
      (Real.cos ((0 : ℝ) * 0.1) * (((37.3 : ℝ) - 37.2) / 3)))) 360 = 45
  have hz2 : ((0 : ℝ) * 0.1 * 2) = 0 := by norm_num
  have hz1 : ((0 : ℝ) * 0.1) = 0 := by norm_num
  rw [hz2, hz1, Real.cos_zero, one_mul, one_mul]
  have hx : (0 : ℝ) < ((37.3 : ℝ) - 37.2) / 3 := by norm_num
  rw [atan2_of_pos hx]
  have hq : (((-115.7 : ℝ) - -115.8) / 3) / (((37.3 : ℝ) - 37.2) / 3) = 1 := by norm_num
  rw [hq, Real.arctan_one, degOf_pi_div_four]
  exact pyMod_eq_self (by norm_num) (by norm_num) (by norm_num)

/-- The spec-side course at wall clock 0 lies strictly between 45 and 90
    degrees (it is degOf (arctan 2), since the analytic derivative of the
    longitude component carries the chain-rule factor 2). -/
theorem specCourse_at_zero_bounds : 45 < specCourse 0 ∧ specCourse 0 < 90 := by
  have hlon : deriv specLonAt 0
      = ((-115.7 : ℝ) - (-115.8)) / 3 * (1 * (2 * omegaRate)) := by
    rw [deriv_specLonAt]
    norm_num
  have hlat : deriv specLatAt 0
      = ((37.3 : ℝ) - 37.2) / 3 * (1 * omegaRate) := by
    rw [deriv_specLatAt]
    norm_num
  have hx : (0 : ℝ) < ((37.3 : ℝ) - 37.2) / 3 * (1 * omegaRate) := by
    unfold omegaRate
    norm_num
  have hq : (((-115.7 : ℝ) - (-115.8)) / 3 * (1 * (2 * omegaRate)))
      / (((37.3 : ℝ) - 37.2) / 3 * (1 * omegaRate)) = 2 := by
    unfold omegaRate
    norm_num
  have hsc : specCourse 0 = degOf (Real.arctan 2) := by
    unfold specCourse
    rw [hlon, hlat, atan2_of_pos hx, hq]
    have h45 : (45 : ℝ) < degOf (Real.arctan 2) := by
      rw [← degOf_pi_div_four]
      apply degOf_strictMono
      rw [← Real.arctan_one]
      exact Real.arctan_strictMono (by norm_num)
    have h90 : degOf (Real.arctan 2) < 90 := by
      rw [← degOf_pi_div_two]
      exact degOf_strictMono (Real.arctan_lt_pi_div_two 2)
    exact pyMod_eq_self (le_trans (by norm_num) h45.le) (by norm_num)
      (lt_trans h90 (by norm_num))
  rw [hsc]
  constructor
  · rw [← degOf_pi_div_four]
    apply degOf_strictMono
    rw [← Real.arctan_one]
    exact Real.arctan_strictMono (by norm_num)
  · rw [← degOf_pi_div_two]
    exact degOf_strictMono (Real.arctan_lt_pi_div_two 2)

/-- C3 counterexample: at the concrete time 0 the course the drone CoT emits
    (45 degrees) differs from atan2 of the analytic time-derivatives of the
    longitude and latitude components (degOf (arctan 2), about 63.4 degrees):
    the code drops the chain-rule factor 2 from d/dt sin(2 omega t). -/
theorem c3_counterexample :
    (Tests.droneKin (Tests.initState 0) 0).course ≠ specCourse 0 := by
  rw [droneKin_course_at_zero]
  exact ne_of_lt specCourse_at_zero_bounds.1

/-- C3 amended: the course emitted in the drone CoT equals
    atan2(dx, dy) in degrees mod 360 with dx = cos(2 omega t) * R_lon and
    dy = cos(omega t) * R_lat; these are proportional to the analytic
    time-derivatives of the longitude and latitude components but drop their
    chain-rule factors (2 omega and omega respectively), so the emitted
    course is generally not the direction obtained from those derivatives. -/
theorem c3_course_formula :
    (∀ (g : Tests.GenState) (s : ℝ),
        (Tests.droneKin g s).course
          = pyMod (degOf (atan2
              (Real.cos (s * 0.1 * 2) * ((g.lon_range.2 - g.lon_range.1) / 3))
              (Real.cos (s * 0.1) * ((g.lat_range.2 - g.lat_range.1) / 3)))) 360) ∧
    (∀ s : ℝ,
        deriv specLonAt s
          = 2 * omegaRate * (Real.cos (s * 0.1 * 2) * (((-115.7 : ℝ) - (-115.8)) / 3)) ∧
        deriv specLatAt s
          = omegaRate * (Real.cos (s * 0.1) * (((37.3 : ℝ) - 37.2) / 3))) := by
  constructor
  · intro g s
    rfl
  · intro s
    constructor
    · rw [deriv_specLonAt]
      have harg : 2 * omegaRate * s = s * 0.1 * 2 := by
        unfold omegaRate
        ring
      rw [harg]
      ring
    · rw [deriv_specLatAt]
      have harg : omegaRate * s = s * 0.1 := by
        unfold omegaRate
        ring
      rw [harg]
      ring
